import Mathlib

/-!
Shallow embedding of the core of the Arbitrage-Prediction-Bot repository
(src/core: event_registry.py, venue_mappers.py, odds.py, fees.py, risk.py,
sizing.py, execution.py, portfolio.py) over exact rational arithmetic.
Python floats are modelled as `Rat` (exact arithmetic); Python dicts are
modelled as insertion-ordered association lists with update-in-place
semantics; datetime bookkeeping fields that no claim depends on
(created_at / updated_at timestamps) are omitted from record models.
-/

/-- Venue enumeration (types.py `Venue`). -/
inductive Venue where
  | polymarket
  | kalshi
deriving DecidableEq, Repr

/-- Order side enumeration (types.py `OrderSide`). -/
inductive OrderSide where
  | buy
  | sell
deriving DecidableEq, Repr

/-- Contract side enumeration (types.py `ContractSide`). -/
inductive ContractSide where
  | yes
  | no
deriving DecidableEq, Repr

/-- Order time-in-force (types.py `OrderTIF`). -/
inductive OrderTIF where
  | ioc
  | fok
  | gtc
deriving DecidableEq, Repr

/-- Fee structure for a venue (types.py `FeeModel`); the `extra` dict is
unused by the fee calculator and omitted. -/
structure FeeModel where
  maker_bps : Rat := 0
  taker_bps : Rat := 0
  withdrawal_fee : Option Rat := none
  gas_estimate_usd : Rat := 0
deriving DecidableEq, Repr

/-- Order placement request (types.py `OrderRequest`); the generated
client_order_id is irrelevant to the claims and omitted. -/
structure OrderRequest where
  venue : Venue
  contract_id : String
  side : OrderSide
  price : Rat
  qty : Rat
  tif : OrderTIF := OrderTIF.ioc
deriving DecidableEq, Repr

/-- Order fill information (types.py `Fill`); timestamps and order ids
omitted. -/
structure Fill where
  venue : Venue
  contract_id : String
  side : OrderSide
  avg_price : Rat
  qty : Rat
  fee_paid : Rat
deriving DecidableEq, Repr

/-- Arbitrage opportunity (types.py `ArbOpportunity`); expiry / rationale /
confidence are irrelevant to the claims about sizing and execution. -/
structure ArbOpportunity where
  event_id : String
  leg_a : OrderRequest
  leg_b : OrderRequest
  edge_bps : Rat
  notional : Rat
deriving DecidableEq, Repr

/-- Trade status literal (types.py `Trade.status`); `part` models the
source's partially-filled status literal. -/
inductive TradeStatus where
  | pending
  | part
  | filled
  | failed
  | hedged
  | cancelled
deriving DecidableEq, Repr

/-- Completed trade record (types.py `Trade`); trade_id and datetime fields
omitted. -/
structure Trade where
  event_id : String := ""
  venue_a : Venue := Venue.polymarket
  venue_b : Venue := Venue.kalshi
  contract_a : String := ""
  contract_b : String := ""
  side_a : OrderSide := OrderSide.buy
  side_b : OrderSide := OrderSide.buy
  qty : Rat := 0
  price_a : Rat := 0
  price_b : Rat := 0
  fee_a : Rat := 0
  fee_b : Rat := 0
  edge_bps : Rat := 0
  pnl : Rat := 0
  status : TradeStatus := TradeStatus.pending
deriving DecidableEq, Repr

/-- Account balance for a venue (types.py `Balance`). -/
structure Balance where
  venue : Venue
  currency : String
  available : Rat
  total : Rat
deriving DecidableEq, Repr

/-- Risk management limits (types.py `RiskLimits`). -/
structure RiskLimits where
  max_open_risk_usd : Rat
  max_per_trade_usd : Rat
  max_position_per_event_usd : Rat
  max_drawdown_pct : Rat
  min_edge_bps : Rat
  max_slippage_bps : Rat
deriving DecidableEq, Repr

/-! ### Association-list model of Python dicts

Python dicts preserve insertion order; assigning to an existing key updates
the value in place, otherwise the pair is appended. -/

/-- Dict assignment `d[k] = v`: update in place if the key exists, else
append. -/
def dictInsert {κ α : Type} [DecidableEq κ] (k : κ) (v : α) :
    List (κ × α) → List (κ × α)
  | [] => [(k, v)]
  | (k', v') :: rest =>
    if k' = k then (k, v) :: rest else (k', v') :: dictInsert k v rest

/-- Dict lookup `d.get(k)`. -/
def dictGet {κ α : Type} [DecidableEq κ] (k : κ) : List (κ × α) → Option α
  | [] => none
  | (k', v') :: rest => if k' = k then some v' else dictGet k rest

/-! ### odds.py -/

/-- odds.py `calculate_arbitrage_edge`: computes the arbitrage edge for both
directions and returns `(max_edge_bps, edge_direction, rationale)`. The
rationale is modelled by its direction label; the source appends the
formatted bps figure (a float-formatting detail) after the label. -/
def calculate_arbitrage_edge (ask_yes_a ask_no_b ask_no_a ask_yes_b : Rat)
    (total_costs : Rat := 0) : Rat × Rat × String :=
  let sum1 := ask_yes_a + ask_no_b + total_costs
  let edge1_bps := max 0 ((1 - sum1) * 10000)
  let sum2 := ask_no_a + ask_yes_b + total_costs
  let edge2_bps := max 0 ((1 - sum2) * 10000)
  if edge1_bps > edge2_bps then
    (edge1_bps, edge1_bps, "YES@A+NO@B")
  else
    (edge2_bps, edge2_bps, "NO@A+YES@B")

/-! ### fees.py `FeeCalculator` -/

/-- The fee-model table of a `FeeCalculator` (fees.py): `fee_models` dict
keyed by venue. -/
def FeeModels : Type := Venue → Option FeeModel

/-- fees.py `FeeCalculator.estimate_trade_cost`: total trading cost in USD
for a trade (venues without a configured model cost 0). -/
def estimate_trade_cost (fee_models : FeeModels) (venue : Venue)
    (_side : OrderSide) (price qty : Rat) (is_maker : Bool := false) : Rat :=
  match fee_models venue with
  | none => 0
  | some fee_model =>
    let notional := price * qty
    let fee_bps := if is_maker then fee_model.maker_bps else fee_model.taker_bps
    let trading_fee := notional * (fee_bps / 10000)
    let gas_cost := fee_model.gas_estimate_usd
    let withdrawal_fee := fee_model.withdrawal_fee.getD 0
    trading_fee + gas_cost + withdrawal_fee

/-- fees.py `FeeCalculator.calculate_effective_price`: price adjusted by the
per-unit total cost (added for BUY, subtracted for SELL); returns the raw
price when the notional is zero. -/
def calculate_effective_price (fee_models : FeeModels) (venue : Venue)
    (side : OrderSide) (price qty : Rat) (is_maker : Bool := false) : Rat :=
  let total_cost := estimate_trade_cost fee_models venue side price qty is_maker
  let notional := price * qty
  if notional = 0 then price
  else
    let cost_per_unit := total_cost / qty
    if side = OrderSide.buy then price + cost_per_unit else price - cost_per_unit

/-- fees.py `FeeCalculator.calculate_breakeven_price`: solves the comment's
equations for the contract price given a target effective price (note the
source divides the fee rate by `qty` in the denominator). -/
def calculate_breakeven_price (fee_models : FeeModels) (venue : Venue)
    (side : OrderSide) (target_price qty : Rat) (is_maker : Bool := false) : Rat :=
  match fee_models venue with
  | none => target_price
  | some fee_model =>
    let fee_bps := if is_maker then fee_model.maker_bps else fee_model.taker_bps
    let gas_cost := fee_model.gas_estimate_usd
    let withdrawal_fee := fee_model.withdrawal_fee.getD 0
    let total_fixed_cost := gas_cost + withdrawal_fee
    if side = OrderSide.buy then
      let denominator := 1 + (fee_bps / 10000) / qty
      let numerator := target_price - total_fixed_cost / qty
      if denominator ≠ 0 then numerator / denominator else target_price
    else
      let denominator := 1 - (fee_bps / 10000) / qty
      let numerator := target_price + total_fixed_cost / qty
      if denominator ≠ 0 then numerator / denominator else target_price

/-- fees.py `create_default_fee_calculator`: the default per-venue fee
models (Polymarket taker 25 bps + 0.50 USD gas, Kalshi taker 30 bps). -/
def default_fee_models : FeeModels := fun venue =>
  match venue with
  | Venue.polymarket =>
      some { maker_bps := 0, taker_bps := 25, gas_estimate_usd := 1/2 }
  | Venue.kalshi =>
      some { maker_bps := 0, taker_bps := 30 }

/-! ### risk.py `RiskManager._check_drawdown` -/

/-- Loop body of risk.py `_check_drawdown`: the state is
`(running_pnl, peak_pnl, max_drawdown)`. -/
def drawdown_step (st : Rat × Rat × Rat) (pnl : Rat) : Rat × Rat × Rat :=
  let running_pnl := st.1 + pnl
  let peak_pnl := max st.2.1 running_pnl
  let drawdown := peak_pnl - running_pnl
  let max_drawdown := max st.2.2 drawdown
  (running_pnl, peak_pnl, max_drawdown)

/-- risk.py `RiskManager._check_drawdown`: folds the recorded PnL history
with `drawdown_step` from `(0, 0, 0)` and reports a breach when the final
peak is positive and `max_drawdown / peak * 100` exceeds the limit. -/
def check_drawdown (max_drawdown_pct : Rat) (pnl_history : List Rat) : Bool :=
  if pnl_history = [] then false
  else
    let st := pnl_history.foldl drawdown_step (0, 0, 0)
    let peak_pnl := st.2.1
    let max_drawdown := st.2.2
    if peak_pnl > 0 then decide (max_drawdown / peak_pnl * 100 > max_drawdown_pct)
    else false

/-- Cumulative PnL after the first `n` entries of the history (spec-level
quantity used to state the drawdown claims). -/
def cumulativePnl (hist : List Rat) (n : Nat) : Rat := (hist.take n).sum

/-- Running peak of the cumulative PnL sequence (spec-level quantity; the
source's loop seeds the peak with 0). -/
def runningPeak (hist : List Rat) : Rat :=
  ((List.range hist.length).map (fun i => cumulativePnl hist (i + 1))).foldl max 0

/-- Maximum drawdown over the whole history: the largest gap between the
running peak and the cumulative PnL at any point (spec-level quantity). -/
def histMaxDrawdown (hist : List Rat) : Rat :=
  ((List.range hist.length).map
    (fun i => runningPeak (hist.take (i + 1)) - cumulativePnl hist (i + 1))).foldl max 0

/-- Modelled from the spec: the drawdown gate as the claim reads it, breached
when the running peak is positive and the CURRENT drawdown
`(peak - running) / peak * 100` exceeds the limit, `running` being the final
cumulative PnL. -/
def spec_current_drawdown_breached (max_drawdown_pct : Rat) (hist : List Rat) : Prop :=
  0 < runningPeak hist ∧
    (runningPeak hist - hist.sum) / runningPeak hist * 100 > max_drawdown_pct

instance (d : Rat) (hist : List Rat) : Decidable (spec_current_drawdown_breached d hist) :=
  inferInstanceAs (Decidable (_ ∧ _))

/-! ### sizing.py `PositionSizer` -/

/-- sizing.py `PositionSizer` state: risk limits, the kelly multiplier and
the bankroll. -/
structure PositionSizer where
  risk_limits : RiskLimits
  kelly_fraction : Rat := 1/4
  bankroll : Rat := 10000
deriving DecidableEq, Repr

/-- sizing.py `PositionSizer._calculate_kelly_size`: bankroll times the
capped edge times the kelly multiplier, over the opportunity notional. -/
def calculate_kelly_size (s : PositionSizer) (opportunity : ArbOpportunity) : Rat :=
  let edge_decimal := opportunity.edge_bps / 10000
  let kelly_fraction := min edge_decimal (1/4)
  let adjusted_fraction := kelly_fraction * s.kelly_fraction
  s.bankroll * adjusted_fraction / opportunity.notional

/-- sizing.py `PositionSizer._apply_risk_limits`: clips the size by the
per-trade, per-event and total open-risk limits. The `notional` used by the
three checks is computed once from the incoming size, as in the source. -/
def apply_risk_limits (s : PositionSizer) (size0 : Rat) (opportunity : ArbOpportunity)
    (existing_positions : List (String × Rat)) : Rat :=
  let notional := size0 * opportunity.notional
  let size1 :=
    if notional > s.risk_limits.max_per_trade_usd then
      s.risk_limits.max_per_trade_usd / opportunity.notional
    else size0
  let existing_event_exposure := (dictGet opportunity.event_id existing_positions).getD 0
  let max_per_event := s.risk_limits.max_position_per_event_usd
  let size2 :=
    if existing_event_exposure + notional > max_per_event then
      let remaining_capacity := max_per_event - existing_event_exposure
      if remaining_capacity > 0 then remaining_capacity / opportunity.notional else 0
    else size1
  let total_exposure := (existing_positions.map (fun kv => kv.2)).sum + notional
  let size3 :=
    if total_exposure > s.risk_limits.max_open_risk_usd then
      let remaining_capacity :=
        s.risk_limits.max_open_risk_usd - (existing_positions.map (fun kv => kv.2)).sum
      if remaining_capacity > 0 then remaining_capacity / opportunity.notional else 0
    else size2
  size3

/-- sizing.py `PositionSizer._get_venue_balance`: the first balance in the
dict's value order whose venue matches. -/
def get_venue_balance (venue : Venue) : List (String × Balance) → Option Balance
  | [] => none
  | (_, b) :: rest => if b.venue = venue then some b else get_venue_balance venue rest

/-- sizing.py `PositionSizer._apply_balance_constraints`: clips the size by
the available balance at each leg's venue; both leg costs are computed from
the incoming size, as in the source. -/
def apply_balance_constraints (size0 : Rat) (opportunity : ArbOpportunity)
    (balances : List (String × Balance)) : Rat :=
  let leg_a_cost := size0 * opportunity.leg_a.price
  let leg_b_cost := size0 * opportunity.leg_b.price
  let venue_a_balance := get_venue_balance opportunity.leg_a.venue balances
  let venue_b_balance := get_venue_balance opportunity.leg_b.venue balances
  let size1 :=
    match venue_a_balance with
    | some b => if leg_a_cost > b.available then b.available / opportunity.leg_a.price else size0
    | none => size0
  let size2 :=
    match venue_b_balance with
    | some b =>
      if leg_b_cost > b.available then min size1 (b.available / opportunity.leg_b.price)
      else size1
    | none => size1
  size2

/-- Python's built-in `round` on an exact value: round half to even. -/
def pyRound (q : Rat) : Int :=
  let f := ⌊q⌋
  let frac := q - f
  if frac < 1/2 then f
  else if 1/2 < frac then f + 1
  else if 2 ∣ f then f else f + 1

/-- sizing.py `PositionSizer._round_to_venue_ticks`: `max(1.0, round(size))`. -/
def round_to_venue_ticks (size : Rat) : Rat :=
  max 1 ((pyRound size : Int) : Rat)

/-- sizing.py `PositionSizer.calculate_position_size`: the
kelly → risk → balance → tick staircase, returning `max(0.0, final_size)`. -/
def calculate_position_size (s : PositionSizer) (opportunity : ArbOpportunity)
    (balances : List (String × Balance))
    (existing_positions : List (String × Rat)) : Rat :=
  let kelly_size := calculate_kelly_size s opportunity
  let risk_limited_size := apply_risk_limits s kelly_size opportunity existing_positions
  let balance_limited_size := apply_balance_constraints risk_limited_size opportunity balances
  let final_size := round_to_venue_ticks balance_limited_size
  max 0 final_size

/-! ### execution.py `ExecutionEngine`

Venue clients are modelled by a deterministic placement oracle
`place : OrderRequest → Nat → Option Fill` mapping a request and the retry
attempt index to the fill (or `none` for no fill); venue exceptions are not
modelled, so the engine's exception-catch path is absent. Each function
additionally returns the ordered trace of `place_order` calls it issued. -/

/-- execution.py `ExecutionEngine._estimate_liquidity`: the constant
placeholder liquidity score. -/
def estimate_liquidity (_order_request : OrderRequest) : Rat := 1000

/-- Retry loop of execution.py `ExecutionEngine._execute_leg`: fuel counts
the remaining attempts, the second argument is the attempt index. -/
def execute_leg_go (place : OrderRequest → Nat → Option Fill) (req : OrderRequest) :
    Nat → Nat → Option Fill × List OrderRequest
  | 0, _ => (none, [])
  | fuel + 1, attempt =>
    match place req attempt with
    | some fill => (some fill, [req])
    | none =>
      let rest := execute_leg_go place req fuel (attempt + 1)
      (rest.1, req :: rest.2)

/-- execution.py `ExecutionEngine._execute_leg`: overwrites the request's
quantity with the position size, then retries placement up to
`max_retries` times. -/
def execute_leg (place : OrderRequest → Nat → Option Fill) (max_retries : Nat)
    (order_request : OrderRequest) (position_size : Rat) :
    Option Fill × List OrderRequest :=
  let req := { order_request with qty := position_size }
  execute_leg_go place req max_retries 0

/-- execution.py `ExecutionEngine._execute_both_legs`: places the leg whose
estimated liquidity is lower first; the second leg is placed only when the
first returned a fill. Returns `some (fill_a, fill_b)` (the source's
`[fill_a, fill_b]` list) or `none`, plus the placement trace. -/
def execute_both_legs (place : OrderRequest → Nat → Option Fill) (max_retries : Nat)
    (opportunity : ArbOpportunity) (position_size : Rat) :
    Option (Option Fill × Option Fill) × List OrderRequest :=
  let leg_a_liquidity := estimate_liquidity opportunity.leg_a
  let leg_b_liquidity := estimate_liquidity opportunity.leg_b
  if leg_a_liquidity < leg_b_liquidity then
    match execute_leg place max_retries opportunity.leg_a position_size with
    | (some fill_a, tra) =>
      match execute_leg place max_retries opportunity.leg_b position_size with
      | (fill_b, trb) => (some (some fill_a, fill_b), tra ++ trb)
    | (none, tra) => (none, tra)
  else
    match execute_leg place max_retries opportunity.leg_b position_size with
    | (some fill_b, trb) =>
      match execute_leg place max_retries opportunity.leg_a position_size with
      | (fill_a, tra) => (some (fill_a, some fill_b), trb ++ tra)
    | (none, trb) => (none, trb)

/-- execution.py `ExecutionEngine._calculate_trade_pnl`: zero when either
fill is missing, else `qty * edge_bps/10000 - (fee_a + fee_b)` using the fee
fields already written into the trade. -/
def calculate_trade_pnl (trade : Trade) (fill_a fill_b : Option Fill) : Rat :=
  match fill_a, fill_b with
  | some _, some _ =>
    let edge_decimal := trade.edge_bps / 10000
    trade.qty * edge_decimal - (trade.fee_a + trade.fee_b)
  | _, _ => 0

/-- execution.py `ExecutionEngine.execute_opportunity`: builds the pending
trade, runs both legs, and on a non-`none` leg result writes the fees
(0 for a missing fill), marks the trade `filled` and computes its PnL;
otherwise marks it `failed`. Returns the source's return value together
with the trade record appended to the engine's history. -/
def execute_opportunity (place : OrderRequest → Nat → Option Fill) (max_retries : Nat)
    (opportunity : ArbOpportunity) (position_size : Rat) : Option Trade × Trade :=
  let trade : Trade := {
    event_id := opportunity.event_id,
    venue_a := opportunity.leg_a.venue, venue_b := opportunity.leg_b.venue,
    contract_a := opportunity.leg_a.contract_id, contract_b := opportunity.leg_b.contract_id,
    side_a := opportunity.leg_a.side, side_b := opportunity.leg_b.side,
    qty := position_size,
    price_a := opportunity.leg_a.price, price_b := opportunity.leg_b.price,
    edge_bps := opportunity.edge_bps,
    status := TradeStatus.pending }
  match (execute_both_legs place max_retries opportunity position_size).1 with
  | some (fill_a, fill_b) =>
    let trade1 := { trade with
      fee_a := match fill_a with | some f => f.fee_paid | none => 0,
      fee_b := match fill_b with | some f => f.fee_paid | none => 0,
      status := TradeStatus.filled }
    let trade2 := { trade1 with pnl := calculate_trade_pnl trade1 fill_a fill_b }
    (some trade2, trade2)
  | none =>
    (none, { trade with status := TradeStatus.failed })

/-! ### portfolio.py `Portfolio` -/

/-- Position in a contract (types.py `Position`); PnL bookkeeping fields and
timestamps are omitted. -/
structure Position where
  venue : Venue
  contract_id : String
  normalized_event_id : String
  side : ContractSide
  qty : Rat
  avg_price : Rat
deriving DecidableEq, Repr

/-- portfolio.py `Portfolio` state: balances, the event → venue → position
book and the append-only trade ledger (the quote cache is irrelevant to the
balance claims). -/
structure PortfolioSt where
  initial_balance : Rat
  current_balance : Rat
  positions : List (String × List (Venue × Position))
  trades : List Trade
deriving DecidableEq, Repr

/-- portfolio.py `Portfolio.__init__`. -/
def init_portfolio (initial_balance : Rat) : PortfolioSt :=
  { initial_balance := initial_balance, current_balance := initial_balance,
    positions := [], trades := [] }

/-- One leg's effect on a venue position in portfolio.py
`Portfolio._update_positions_from_trade`: BUY merges with weighted-average
price, SELL subtracts and zeroes the position when depleted. -/
def apply_leg_to_position (pos : Position) (side : OrderSide) (qty price : Rat) : Position :=
  if side = OrderSide.buy then
    let new_qty := pos.qty + qty
    if new_qty > 0 then
      { pos with avg_price := (pos.qty * pos.avg_price + qty * price) / new_qty,
                 qty := new_qty }
    else { pos with qty := 0, avg_price := 0 }
  else
    let q := pos.qty - qty
    if q ≤ 0 then { pos with qty := 0, avg_price := 0 } else { pos with qty := q }

/-- portfolio.py `Portfolio._update_positions_from_trade`: initializes the
venue positions on first touch (side defaulted to YES for venue A and NO for
venue B, as in the source) and applies both legs in order. -/
def update_positions_from_trade (positions : List (String × List (Venue × Position)))
    (trade : Trade) : List (String × List (Venue × Position)) :=
  let event_positions := (dictGet trade.event_id positions).getD []
  let pos_a := (dictGet trade.venue_a event_positions).getD
    { venue := trade.venue_a, contract_id := trade.contract_a,
      normalized_event_id := trade.event_id, side := ContractSide.yes,
      qty := 0, avg_price := 0 }
  let pos_a' := apply_leg_to_position pos_a trade.side_a trade.qty trade.price_a
  let event_positions1 := dictInsert trade.venue_a pos_a' event_positions
  let pos_b := (dictGet trade.venue_b event_positions1).getD
    { venue := trade.venue_b, contract_id := trade.contract_b,
      normalized_event_id := trade.event_id, side := ContractSide.no,
      qty := 0, avg_price := 0 }
  let pos_b' := apply_leg_to_position pos_b trade.side_b trade.qty trade.price_b
  let event_positions2 := dictInsert trade.venue_b pos_b' event_positions1
  dictInsert trade.event_id event_positions2 positions

/-- portfolio.py `Portfolio.add_trade`: appends the trade to the ledger,
updates both venue positions, and increments the current balance by the
trade's PnL. -/
def add_trade (p : PortfolioSt) (trade : Trade) : PortfolioSt :=
  { p with trades := p.trades ++ [trade],
           positions := update_positions_from_trade p.positions trade,
           current_balance := p.current_balance + trade.pnl }

/-! ### event_registry.py

String machinery mirrors the Python string/regex operations used by the
registry and the mappers, specialised to the ASCII character classes the
source's regexes use. -/

/-- Python `\s` whitespace (ASCII range: space, tab, LF, VT, FF, CR). -/
def isPySpace (c : Char) : Bool :=
  c = ' ' || c = '\t' || c = '\n' || c = '\r' || c = Char.ofNat 11 || c = Char.ofNat 12

/-- Python `str.strip()`: drop leading and trailing whitespace. -/
def stripChars (l : List Char) : List Char :=
  ((l.dropWhile isPySpace).reverse.dropWhile isPySpace).reverse

/-- Body of the whitespace collapsing below; `pendingSpace` records whether a
whitespace run is open and still owes its single replacement space. -/
def collapseSpacesGo (pendingSpace : Bool) : List Char → List Char
  | [] => []
  | c :: rest =>
    if isPySpace c then collapseSpacesGo true rest
    else if pendingSpace then ' ' :: c :: collapseSpacesGo false rest
    else c :: collapseSpacesGo false rest

/-- Python `re.sub(r'\s+', ' ', s)` on an already-stripped string: each
interior whitespace run becomes a single space. -/
def collapseSpaces (l : List Char) : List Char := collapseSpacesGo false l

/-- Python `\w` word characters (ASCII): letters, digits and underscore. -/
def isWordChar (c : Char) : Bool := c.isAlphanum || c = '_'

/-- Character class kept by `_normalize_text`'s second substitution:
`[\w\s\-:.,?!]`. -/
def keepChar (c : Char) : Bool :=
  isWordChar c || isPySpace c || c = '-' || c = ':' || c = '.' || c = ',' || c = '?' || c = '!'

/-- venue_mappers.py `BaseVenueMapper._normalize_text`: strip, collapse
whitespace runs, then delete characters outside `[\w\s\-:.,?!]`. -/
def normalize_text (text : String) : String :=
  if text = "" then ""
  else String.mk ((collapseSpaces (stripChars text.toList)).filter keepChar)

/-- Python `str.upper()` (ASCII). -/
def upperStr (s : String) : String := String.mk (s.toList.map Char.toUpper)

/-- Does `needle` occur as a contiguous run of `l` (helper for Python's
substring operator)? -/
def subOccurs (needle : List Char) : List Char → Bool
  | [] => needle.isEmpty
  | c :: rest => needle.isPrefixOf (c :: rest) || subOccurs needle rest

/-- Python's substring test `needle in haystack`. -/
def containsSub (haystack needle : String) : Bool :=
  subOccurs needle.toList haystack.toList

/-- Anchored match of the year regex `20(24|25|26|27|28|29|30)` at the head
of the list. -/
def yearHead24to30 : List Char → Option String
  | '2' :: '0' :: c2 :: c3 :: _ =>
    if (c2 = '2' ∧ '4' ≤ c3 ∧ c3 ≤ '9') ∨ (c2 = '3' ∧ c3 = '0') then
      some (String.mk ['2', '0', c2, c3])
    else none
  | _ => none

/-- Leftmost match of the year regex `20(24|25|26|27|28|29|30)` used by
`_parse_election_event`. -/
def searchYear24to30 : List Char → Option String
  | [] => none
  | c :: rest =>
    match yearHead24to30 (c :: rest) with
    | some y => some y
    | none => searchYear24to30 rest

/-- Anchored match of the year regex `20\d{2}` at the head of the list. -/
def yearHead20xx : List Char → Option String
  | '2' :: '0' :: c2 :: c3 :: _ =>
    if c2.isDigit ∧ c3.isDigit then some (String.mk ['2', '0', c2, c3]) else none
  | _ => none

/-- Leftmost match of the year regex `20\d{2}` used by the awards parser and
`_extract_date_from_text`. -/
def searchYear20xx : List Char → Option String
  | [] => none
  | c :: rest =>
    match yearHead20xx (c :: rest) with
    | some y => some y
    | none => searchYear20xx rest

/-- Distinct elements of a list (keeping last occurrences), modelling
Python's `set(...)`; only its length is ever used. -/
def dedupChk : List String → List String
  | [] => []
  | x :: rest => if rest.contains x then dedupChk rest else x :: dedupChk rest

/-- Body of the single-character split below; the accumulator holds the
current piece reversed. -/
def splitOnCharGo (sep : Char) (cur : List Char) : List Char → List (List Char)
  | [] => [cur.reverse]
  | c :: rest =>
    if c = sep then cur.reverse :: splitOnCharGo sep [] rest
    else splitOnCharGo sep (c :: cur) rest

/-- Python `str.split(sep)` for a one-character separator: splits at every
occurrence, keeping empty pieces. -/
def splitOnChar (sep : Char) (s : String) : List String :=
  (splitOnCharGo sep [] s.toList).map String.mk

/-- Digit-string accumulator for the numeral parser below. -/
def digitsToNatGo (acc : Nat) : List Char → Option Nat
  | [] => some acc
  | c :: rest =>
    if c.isDigit then digitsToNatGo (acc * 10 + (c.toNat - '0'.toNat)) rest else none

/-- Python `int(s)` restricted to plain unsigned numerals (the only strings
the mappers ever feed it); anything else is a ValueError, modelled as
`none`. -/
def pyIntParse (s : String) : Option Nat :=
  if s.toList.isEmpty then none else digitsToNatGo 0 s.toList

/-- Python `str.startswith(pre)`. -/
def strStartsWith (s pre : String) : Bool := pre.toList.isPrefixOf s.toList

/-- Canonical event type (event_registry.py `EventType`). -/
inductive EventType where
  | election
  | crypto
  | awards
  | sports
  | finance
  | politics
  | other
deriving DecidableEq, Repr

/-- Canonical event scope (event_registry.py `EventScope`). -/
inductive EventScope where
  | us
  | global
  | eu
  | asia
  | other
deriving DecidableEq, Repr

/-- Calendar date as `(year, month, day)` (the registry only ever formats or
defaults dates; no arithmetic on them occurs). -/
def DateYmd : Type := Nat × Nat × Nat

instance : DecidableEq DateYmd := inferInstanceAs (DecidableEq (Nat × Nat × Nat))

/-- Canonical event (event_registry.py `CanonicalEvent`); `date_open` is
always `None` in the mappers and is omitted together with the timestamp and
free-form metadata fields. -/
structure CanonicalEvent where
  event_id : String
  event_type : EventType
  scope : EventScope
  date_close : DateYmd
  canonical_units : String
  display_title : String := ""
  resolution_source : String := ""
  aliases : List String := []
deriving DecidableEq

/-- event_registry.py `CanonicalEvent.build_event_id`: upper-cases and strips
each component and joins everything with colons. -/
def build_event_id (event_type scope : String) (components : List String) : String :=
  let normalized := components.map (fun c => String.mk (stripChars (c.toList.map Char.toUpper)))
  event_type ++ ":" ++ scope ++ ":" ++ String.intercalate ":" normalized

/-- Venue mapping (event_registry.py `VenueMapping`); timestamps and the
free-form metadata dict omitted. -/
structure VenueMapping where
  venue : String
  market_id : String
  event_id : String
  title_raw : String
  description_raw : String := ""
  outcomes : List String := []
  confidence : Rat := 1
  mapping_method : String := "manual"
deriving DecidableEq

/-- event_registry.py `EventRegistry` in-memory state (construction with no
file paths loads nothing from disk). -/
structure EventRegistry where
  events : List (String × CanonicalEvent) := []
  mappings : List (String × VenueMapping) := []
  event_aliases : List (String × String) := []
deriving DecidableEq

/-- `EventRegistry()` with no persistence files. -/
def empty_registry : EventRegistry := {}

/-- event_registry.py `EventRegistry.add_event`: stores the event by id and
registers its aliases upper-cased. -/
def add_event (r : EventRegistry) (event : CanonicalEvent) : EventRegistry :=
  { r with
    events := dictInsert event.event_id event r.events,
    event_aliases :=
      event.aliases.foldl (fun al a => dictInsert (upperStr a) event.event_id al)
        r.event_aliases }

/-- event_registry.py `EventRegistry.get_event`. -/
def get_event (r : EventRegistry) (event_id : String) : Option CanonicalEvent :=
  dictGet event_id r.events

/-- event_registry.py `EventRegistry.add_mapping`: stores the mapping under
the key `venue:market_id` unconditionally. -/
def add_mapping (r : EventRegistry) (mapping : VenueMapping) : EventRegistry :=
  { r with mappings := dictInsert (mapping.venue ++ ":" ++ mapping.market_id) mapping r.mappings }

/-- event_registry.py `EventRegistry.get_mapping`. -/
def get_mapping (r : EventRegistry) (venue market_id : String) : Option VenueMapping :=
  dictGet (venue ++ ":" ++ market_id) r.mappings

/-- event_registry.py `EventRegistry.get_mapped_markets`: all stored
mappings whose event id matches. -/
def get_mapped_markets (r : EventRegistry) (event_id : String) : List VenueMapping :=
  (r.mappings.map (fun kv => kv.2)).filter (fun m => m.event_id == event_id)

/-- Coverage statistics returned by event_registry.py
`EventRegistry.get_coverage_stats` (the per-venue and per-method count dicts
are omitted; no claim concerns them). -/
structure CoverageStats where
  total_events : Nat
  total_mappings : Nat
  events_with_cross_venue : Nat
deriving DecidableEq, Repr

/-- event_registry.py `EventRegistry.get_coverage_stats`: an event counts as
cross-venue when its mappings span at least two distinct venues. -/
def get_coverage_stats (r : EventRegistry) : CoverageStats :=
  { total_events := r.events.length,
    total_mappings := r.mappings.length,
    events_with_cross_venue :=
      (r.events.map (fun kv => kv.1)).countP
        (fun event_id =>
          decide ((dedupChk ((get_mapped_markets r event_id).map (fun m => m.venue))).length ≥ 2)) }

/-! ### venue_mappers.py -/

/-- venue_mappers.py `PolymarketMapper._infer_event_type` (identical in
`KalshiMapper`). -/
def infer_event_type (event_id : String) : EventType :=
  if strStartsWith event_id "ELECTION:" then EventType.election
  else if strStartsWith event_id "CRYPTO:" then EventType.crypto
  else if strStartsWith event_id "AWARDS:" then EventType.awards
  else if strStartsWith event_id "SPORTS:" then EventType.sports
  else EventType.other

/-- venue_mappers.py `PolymarketMapper._infer_scope` (identical in
`KalshiMapper`). -/
def infer_scope (event_id : String) : EventScope :=
  if containsSub event_id ":US:" then EventScope.us
  else if containsSub event_id ":GLOBAL:" then EventScope.global
  else EventScope.other

/-- Candidate alias table of `_parse_election_event`, in source order. -/
def election_candidates : List (String × List String) :=
  [("TRUMP", ["TRUMP", "DONALD TRUMP"]),
   ("BIDEN", ["BIDEN", "JOE BIDEN"]),
   ("HARRIS", ["HARRIS", "KAMALA HARRIS"]),
   ("DESANTIS", ["DESANTIS", "RON DESANTIS"]),
   ("NEWSOM", ["NEWSOM", "GAVIN NEWSOM"])]

/-- venue_mappers.py `PolymarketMapper._parse_election_event` (also reused by
`KalshiMapper._parse_election_from_title`). -/
def parse_election_event (text : String) : Option String :=
  let candidate :=
    (election_candidates.find? (fun ca => ca.2.any (fun al => containsSub text al))).map
      (fun ca => ca.1)
  match candidate with
  | none => none
  | some candidate =>
    match searchYear24to30 text.toList with
    | none => none
    | some year =>
      let position := if containsSub text "PRESIDENT" then "PRESIDENT" else "ELECTION"
      let scope :=
        if ["US", "USA", "UNITED STATES", "AMERICAN"].any (fun w => containsSub text w)
        then "US" else "GLOBAL"
      some (build_event_id "ELECTION" scope [position, year, candidate])

/-- Character class `[\d,]` of the crypto price regexes. -/
def isPriceChar (c : Char) : Bool := c.isDigit || c = ','

/-- Match of the regex `\$?([\d,]+)K` anchored at the head of the list: an
optional dollar sign, then a maximal digit/comma run followed by `K` (any
shorter run would still be followed by a class character, never `K`, so
backtracking cannot help). Returns the captured group. -/
def crypto_p1_at (l : List Char) : Option String :=
  let l' := match l with | '$' :: rest => rest | _ => l
  let run := l'.takeWhile isPriceChar
  if run.length ≥ 1 ∧ (l'.drop run.length).head? = some 'K' then some (String.mk run)
  else none

/-- Leftmost match of `\$?([\d,]+)K`. -/
def searchCryptoP1 : List Char → Option String
  | [] => none
  | c :: rest =>
    match crypto_p1_at (c :: rest) with
    | some g => some g
    | none => searchCryptoP1 rest

/-- Match of the regex `\$?([\d,]+),000` anchored at the head of the list:
the greedy group is the longest prefix of the maximal digit/comma run that
is immediately followed by the literal `,000` (which, being made of class
characters, must lie inside the run). -/
def crypto_p2_at (l : List Char) : Option String :=
  let l' := match l with | '$' :: rest => rest | _ => l
  let run := l'.takeWhile isPriceChar
  match (List.range run.length).reverse.find?
      (fun j => decide (1 ≤ j) && decide ((run.drop j).take 4 = [',', '0', '0', '0'])) with
  | some j => some (String.mk (run.take j))
  | none => none

/-- Leftmost match of `\$?([\d,]+),000`. -/
def searchCryptoP2 : List Char → Option String
  | [] => none
  | c :: rest =>
    match crypto_p2_at (c :: rest) with
    | some g => some g
    | none => searchCryptoP2 rest

/-- Match of the regex `\$?([\d,]+)` anchored at the head of the list. -/
def crypto_p3_at (l : List Char) : Option String :=
  let l' := match l with | '$' :: rest => rest | _ => l
  let run := l'.takeWhile isPriceChar
  if run.length ≥ 1 then some (String.mk run) else none

/-- Leftmost match of `\$?([\d,]+)`. -/
def searchCryptoP3 : List Char → Option String
  | [] => none
  | c :: rest =>
    match crypto_p3_at (c :: rest) with
    | some g => some g
    | none => searchCryptoP3 rest

/-- Python `int(group.replace(',', ''))` for the captured price group; the
source raises an uncaught ValueError when the de-comma'd group is not a
plain numeral (modelled as `none`; unreachable for any claim here). -/
def parsePriceGroup (g : String) : Option Nat :=
  pyIntParse (String.mk (g.toList.filter (fun c => c != ',')))

/-- venue_mappers.py `BaseVenueMapper._extract_date_from_text`. The source
tries four date regexes in order, but each of the later three contains the
first (`20\d{2}`) as a sub-pattern, so the loop finds a match iff a `20\d{2}`
year occurs, and `strptime('%Y')` then returns January 1 of that year. -/
def extract_date_from_text (text : String) : Option DateYmd :=
  match searchYear20xx text.toList with
  | some y => (pyIntParse y).map (fun n => ((n, 1, 1) : DateYmd))
  | none => none

/-- Python `date.strftime('%Y-%m-%d')` (zero-padded month and day). -/
def formatDateYmd (d : DateYmd) : String :=
  let pad2 := fun (n : Nat) => if n < 10 then "0" ++ toString n else toString n
  toString d.1 ++ "-" ++ pad2 d.2.1 ++ "-" ++ pad2 d.2.2

/-- venue_mappers.py `PolymarketMapper._parse_crypto_event` (also reused by
`KalshiMapper._parse_crypto_from_title`). Note the source multiplies by 1000
whenever `K` occurs anywhere in the text, and treats a zero price as falsy
(abstain). -/
def parse_crypto_event (text : String) : Option String :=
  let asset :=
    if containsSub text "BITCOIN" || containsSub text "BTC" then some "BTC"
    else if containsSub text "ETHEREUM" || containsSub text "ETH" then some "ETH"
    else none
  match asset with
  | none => none
  | some asset =>
    let grp :=
      match searchCryptoP1 text.toList with
      | some g => some g
      | none =>
        match searchCryptoP2 text.toList with
        | some g => some g
        | none => searchCryptoP3 text.toList
    match grp with
    | none => none
    | some g =>
      match parsePriceGroup g with
      | none => none
      | some n =>
        let price := if containsSub text "K" then n * 1000 else n
        if price = 0 then none
        else
          match extract_date_from_text text with
          | none => none
          | some date =>
            some (build_event_id "CRYPTO" "GLOBAL"
              [asset ++ "_TARGET", toString price, formatDateYmd date])

/-- Python `str.split()` with no argument: split on whitespace runs,
dropping empty pieces (accumulator holds the current word reversed). -/
def splitWsGo (cur : List Char) : List Char → List (List Char)
  | [] => if cur.isEmpty then [] else [cur.reverse]
  | c :: rest =>
    if isPySpace c then
      if cur.isEmpty then splitWsGo [] rest else cur.reverse :: splitWsGo [] rest
    else splitWsGo (c :: cur) rest

/-- Python `str.split()`. -/
def pySplit (s : String) : List String := (splitWsGo [] s.toList).map String.mk

/-- Body of the Python `str.istitle()` test: uppercase letters may only
follow uncased characters, lowercase letters only cased ones, and at least
one cased character must occur. -/
def isTitleGo (prevCased hasCased : Bool) : List Char → Bool
  | [] => hasCased
  | c :: rest =>
    if c.isUpper then
      if prevCased then false else isTitleGo true true rest
    else if c.isLower then
      if prevCased then isTitleGo true true rest else false
    else isTitleGo false hasCased rest

/-- Python `str.istitle()`. -/
def pyIsTitle (s : String) : Bool := isTitleGo false false s.toList

/-- Nominee extraction loop of `_parse_awards_event`: consecutive word pairs
that both pass `istitle()` with a first word longer than two characters. -/
def collectNominees : List String → List String
  | w1 :: w2 :: rest =>
    if pyIsTitle w1 && decide (w1.length > 2) && pyIsTitle w2 then
      (w1 ++ "_" ++ w2) :: collectNominees (w2 :: rest)
    else collectNominees (w2 :: rest)
  | _ => []

/-- venue_mappers.py `PolymarketMapper._parse_awards_event`. -/
def parse_awards_event (text : String) : Option String :=
  let ceremony :=
    if containsSub text "OSCAR" then some "OSCARS"
    else if containsSub text "EMMY" then some "EMMYS"
    else if containsSub text "GRAMMY" then some "GRAMMYS"
    else none
  match ceremony with
  | none => none
  | some ceremony =>
    match searchYear20xx text.toList with
    | none => none
    | some year =>
      let category :=
        if containsSub text "ACTRESS" then "BEST_ACTRESS"
        else if containsSub text "ACTOR" then "BEST_ACTOR"
        else if containsSub text "DIRECTOR" then "BEST_DIRECTOR"
        else "BEST_PICTURE"
      match (collectNominees (pySplit text)).head? with
      | none => none
      | some nominee =>
        some (build_event_id "AWARDS" "GLOBAL" [ceremony, category, year, nominee])

/-- venue_mappers.py `PolymarketMapper._parse_sports_event`: the source
returns `None` unconditionally. -/
def parse_sports_event (_text : String) : Option String := none

/-- The mappers' confidence constant 0.95 in normalized form (19/20), so
that comparisons against it stay kernel-computable. -/
def confNinetyFive : Rat := Rat.mk' 19 20 (by decide) (by decide)

/-- The mappers' confidence constant 0.90 in normalized form (9/10). -/
def confNinety : Rat := Rat.mk' 9 10 (by decide) (by decide)

/-- The mappers' acceptance threshold 0.85 in normalized form (17/20). -/
def confEightyFive : Rat := Rat.mk' 17 20 (by decide) (by decide)

/-- venue_mappers.py `PolymarketMapper.map_to_event_id`: dispatches on
keyword groups in the normalized upper-cased title, parses the combined
title+description text, and on success (confidence ≥ 0.85) creates the
event if missing and stores the mapping. Metadata is modelled by its only
consumed content, an optional close date. -/
def polymarket_map_to_event_id (r : EventRegistry) (market_id title description : String)
    (metadata : Option DateYmd) : Option String × EventRegistry :=
  match get_mapping r "polymarket" market_id with
  | some existing => (some existing.event_id, r)
  | none =>
    let norm_title := upperStr (normalize_text title)
    let norm_desc := upperStr (normalize_text description)
    let combined := norm_title ++ " " ++ norm_desc
    let parsed : Option (String × Rat) :=
      if ["ELECTION", "PRESIDENT", "PRESIDENTIAL", "WIN"].any
          (fun w => containsSub norm_title w) then
        (parse_election_event combined).map (fun e => (e, confNinetyFive))
      else if ["BITCOIN", "BTC", "ETH", "ETHEREUM", "CRYPTO"].any
          (fun w => containsSub norm_title w) then
        (parse_crypto_event combined).map (fun e => (e, confNinetyFive))
      else if ["OSCAR", "EMMY", "GRAMMY", "AWARD"].any
          (fun w => containsSub norm_title w) then
        (parse_awards_event combined).map (fun e => (e, confNinety))
      else if ["SUPER BOWL", "WORLD CUP", "NBA", "NFL", "MLB"].any
          (fun w => containsSub norm_title w) then
        (parse_sports_event combined).map (fun e => (e, confNinety))
      else none
    match parsed with
    | some (event_id, confidence) =>
      if confidence ≥ confEightyFive then
        let r1 :=
          if (get_event r event_id).isNone then
            add_event r {
              event_id := event_id,
              event_type := infer_event_type event_id,
              scope := infer_scope event_id,
              date_close := metadata.getD (2099, 12, 31),
              canonical_units := "YES/NO",
              display_title := title,
              resolution_source := "polymarket" }
          else r
        let r2 := add_mapping r1 {
          venue := "polymarket", market_id := market_id, event_id := event_id,
          title_raw := title, description_raw := description,
          outcomes := ["YES", "NO"], confidence := confidence,
          mapping_method := "deterministic" }
        (some event_id, r2)
      else (none, r)
    | none => (none, r)

/-- venue_mappers.py `KalshiMapper._parse_ticker_format`: `PRES-YEAR-NAME`
election tickers and `BTC-150K-2025` style crypto tickers (Python `int` is
modelled by `String.toNat?`; ticker price fields are plain numerals). -/
def parse_ticker_format (ticker : String) : Option String :=
  let parts := splitOnChar '-' (upperStr ticker)
  if parts.length < 2 then none
  else
    match parts with
    | p0 :: p1 :: restParts =>
      if p0 = "PRES" ∨ p0 = "PRESIDENT" then
        match restParts with
        | p2 :: _ => some (build_event_id "ELECTION" "US" ["PRESIDENT", p1, p2])
        | [] => none
      else if p0 = "BTC" ∨ p0 = "ETH" ∨ p0 = "BITCOIN" ∨ p0 = "ETHEREUM" then
        let asset := if p0 = "BTC" ∨ p0 = "BITCOIN" then "BTC" else "ETH"
        match restParts with
        | p2 :: _ =>
          let price_str := String.mk (p1.toList.flatMap
            (fun c => if c = 'K' then ['0', '0', '0'] else [c]))
          match pyIntParse price_str with
          | some price =>
            some (build_event_id "CRYPTO" "GLOBAL"
              [asset ++ "_TARGET", toString price, p2 ++ "-12-31"])
          | none => none
        | [] => none
      else none
    | _ => none

/-- venue_mappers.py `KalshiMapper.map_to_event_id`: tries the ticker format
first, then falls back to title parsing with the Polymarket parsers; on
success creates the event if missing and stores the mapping with
confidence 0.95. -/
def kalshi_map_to_event_id (r : EventRegistry) (market_id title description : String)
    (metadata : Option DateYmd) : Option String × EventRegistry :=
  match get_mapping r "kalshi" market_id with
  | some existing => (some existing.event_id, r)
  | none =>
    let from_ticker := parse_ticker_format market_id
    let event_id :=
      match from_ticker with
      | some e => some e
      | none =>
        let norm_title := upperStr (normalize_text title)
        let norm_desc := upperStr (normalize_text description)
        let combined := norm_title ++ " " ++ norm_desc
        if ["ELECTION", "PRESIDENT", "PRESIDENTIAL"].any
            (fun w => containsSub norm_title w) then
          parse_election_event combined
        else if ["BITCOIN", "BTC", "ETH", "CRYPTO"].any
            (fun w => containsSub norm_title w) then
          parse_crypto_event combined
        else none
    match event_id with
    | some event_id =>
      let r1 :=
        if (get_event r event_id).isNone then
          add_event r {
            event_id := event_id,
            event_type := infer_event_type event_id,
            scope := infer_scope event_id,
            date_close := metadata.getD (2099, 12, 31),
            canonical_units := "YES/NO",
            display_title := title,
            resolution_source := "kalshi" }
        else r
      let r2 := add_mapping r1 {
        venue := "kalshi", market_id := market_id, event_id := event_id,
        title_raw := title, description_raw := description,
        outcomes := ["YES", "NO"], confidence := confNinetyFive,
        mapping_method := "deterministic" }
      (some event_id, r2)
    | none => (none, r)

/-! ### Concrete scenario data used by the claim theorems -/

/-- Risk limits used by the sizing scenario. -/
def rl0 : RiskLimits :=
  { max_open_risk_usd := 1000, max_per_trade_usd := 1000,
    max_position_per_event_usd := 1000, max_drawdown_pct := 10,
    min_edge_bps := 0, max_slippage_bps := 100 }

/-- Position sizer with the scenario risk limits and the default kelly
multiplier and bankroll. -/
def sizer0 : PositionSizer := { risk_limits := rl0 }

/-- Opportunity with a zero edge (so the kelly size is zero) and unit
notional. -/
def opp0 : ArbOpportunity :=
  { event_id := "E", edge_bps := 0, notional := 1,
    leg_a := { venue := Venue.polymarket, contract_id := "A", side := OrderSide.buy,
               price := 2/5, qty := 0 },
    leg_b := { venue := Venue.kalshi, contract_id := "B", side := OrderSide.buy,
               price := 1/2, qty := 0 } }

/-- The same opportunity with a 100 bps edge, used by the execution
scenario. -/
def opp_exec : ArbOpportunity := { opp0 with edge_bps := 100 }

/-- Placement oracle for the execution scenario: every Kalshi order fills at
its requested price with a 2 USD fee, Polymarket orders never fill (the
leg's placement returns no fill on every retry attempt). -/
def place_legA_unfilled : OrderRequest → Nat → Option Fill := fun req _ =>
  if req.venue = Venue.kalshi then
    some { venue := Venue.kalshi, contract_id := req.contract_id, side := req.side,
           avg_price := req.price, qty := req.qty, fee_paid := 2 }
  else none

/-- A venue mapping whose event id is not present in an empty registry
(mirrors the repository test that adds a mapping to a fresh registry). -/
def orphan_mapping : VenueMapping :=
  { venue := "polymarket", market_id := "m1",
    event_id := "ELECTION:US:PRESIDENT:2028:TRUMP",
    title_raw := "Will Trump win 2028?" }

/-! ## Theorems -/

set_option maxRecDepth 4000

/-- Looking up a key right after inserting it returns the inserted value. -/
theorem dictGet_dictInsert_self {κ α : Type} [DecidableEq κ] (k : κ) (v : α)
    (l : List (κ × α)) : dictGet k (dictInsert k v l) = some v := by
  induction l with
  | nil => simp [dictInsert, dictGet]
  | cons hd tl ih =>
    obtain ⟨k', v'⟩ := hd
    by_cases h : k' = k
    · simp [dictInsert, dictGet, h]
    · simp [dictInsert, dictGet, h, ih]

/-- Collapsing an `if greater-than` onto `max`. -/
theorem if_gt_eq_max (x y : Rat) : (if x > y then x else y) = max x y := by
  rcases le_or_lt x y with h | h
  · rw [if_neg (not_lt.2 h), max_eq_right h]
  · rw [if_pos h, max_eq_left h.le]

/-- C7: `calculate_arbitrage_edge` returns `max(edge_1, edge_2)` where
`edge_i = max(0, (1 - leg_sum_i - total_costs) * 10000)` with
`leg_sum_1 = ask_yes_a + ask_no_b` and `leg_sum_2 = ask_no_a + ask_yes_b`;
at the S1 inputs (0.40, 0.50, 0.60, 0.50, costs 0) it returns 1000 bps with
a rationale identifying the YES@A+NO@B direction. -/
theorem calculate_arbitrage_edge_spec :
    (∀ a b c d k : Rat, (calculate_arbitrage_edge a b c d k).1 =
      max (max 0 ((1 - (a + b) - k) * 10000)) (max 0 ((1 - (c + d) - k) * 10000))) ∧
    (calculate_arbitrage_edge (2/5) (1/2) (3/5) (1/2) 0).1 = 1000 ∧
    (calculate_arbitrage_edge (2/5) (1/2) (3/5) (1/2) 0).2.2 = "YES@A+NO@B" := by
  refine ⟨fun a b c d k => ?_, by with_unfolding_all decide, by with_unfolding_all decide⟩
  have h1 : (1 : Rat) - (a + b + k) = 1 - (a + b) - k := by ring
  have h2 : (1 : Rat) - (c + d + k) = 1 - (c + d) - k := by ring
  simp only [calculate_arbitrage_edge, h1, h2, apply_ite (Prod.fst)]
  exact if_gt_eq_max _ _

/-- C1: the S3 cross-venue determinism scenario fails on the code. The
Polymarket title from the repository's own tests maps to a GLOBAL-scoped id
(the title contains none of the substrings `US`, `USA`, `UNITED STATES`,
`AMERICAN` that `_parse_election_event` looks for), the Kalshi ticker maps
to the US-scoped id, and the registry consequently reports zero events with
cross-venue coverage instead of one. -/
theorem cross_venue_scope_divergence :
    (polymarket_map_to_event_id empty_registry "pm_trump"
        "Will Trump win the 2028 Presidential Election?" "" none).1
      = some "ELECTION:GLOBAL:PRESIDENT:2028:TRUMP" ∧
    (kalshi_map_to_event_id
        (polymarket_map_to_event_id empty_registry "pm_trump"
          "Will Trump win the 2028 Presidential Election?" "" none).2
        "PRES-2028-TRUMP" "Trump 2028" "" none).1
      = some "ELECTION:US:PRESIDENT:2028:TRUMP" ∧
    (get_coverage_stats (kalshi_map_to_event_id
        (polymarket_map_to_event_id empty_registry "pm_trump"
          "Will Trump win the 2028 Presidential Election?" "" none).2
        "PRES-2028-TRUMP" "Trump 2028" "" none).2).events_with_cross_venue = 0 := by
  refine ⟨rfl, rfl, rfl⟩

/-- C2: when the first-placed leg (leg B) fills but leg A returns no fill on
every retry attempt, `execute_opportunity` still records the trade with
status `filled`, with `fee_a = 0` and `pnl = 0`, violating the claimed
filled-PnL identity `pnl = qty * edge_bps/10000 - (fee_a + fee_b)`
(which equals -19/10 here). -/
theorem one_legged_trade_marked_filled :
    (execute_leg place_legA_unfilled 3 opp_exec.leg_a 10).1 = none ∧
    (execute_opportunity place_legA_unfilled 3 opp_exec 10).2.status = TradeStatus.filled ∧
    (execute_opportunity place_legA_unfilled 3 opp_exec 10).2.fee_a = 0 ∧
    (execute_opportunity place_legA_unfilled 3 opp_exec 10).2.pnl = 0 ∧
    (execute_opportunity place_legA_unfilled 3 opp_exec 10).2.qty *
        (execute_opportunity place_legA_unfilled 3 opp_exec 10).2.edge_bps / 10000 -
        ((execute_opportunity place_legA_unfilled 3 opp_exec 10).2.fee_a +
          (execute_opportunity place_legA_unfilled 3 opp_exec 10).2.fee_b) = -(19/10) := by
  refine ⟨rfl, rfl, rfl, rfl, by with_unfolding_all decide⟩

/-- C3 counterexample: for the zero-edge opportunity the kelly intermediate
is non-positive, yet `calculate_position_size` returns 1.0 (the
`max(1.0, round(size))` floor), not 0. -/
theorem nonpositive_kelly_sizes_to_one :
    calculate_kelly_size sizer0 opp0 ≤ 0 ∧
    calculate_position_size sizer0 opp0 [] [] = 1 ∧
    ¬ calculate_position_size sizer0 opp0 [] [] = 0 := by
  refine ⟨by with_unfolding_all decide, by with_unfolding_all decide,
    by with_unfolding_all decide⟩

/-- C3 amended: the staircase's final step `max(1.0, round(size))` floors
every result at 1.0, so `calculate_position_size` never returns 0 — for
every sizer, opportunity, balance map and existing-position map the result
is at least 1. -/
theorem calculate_position_size_ge_one :
    ∀ (s : PositionSizer) (opportunity : ArbOpportunity)
      (balances : List (String × Balance)) (existing_positions : List (String × Rat)),
      1 ≤ calculate_position_size s opportunity balances existing_positions := by
  intro s opportunity balances existing_positions
  unfold calculate_position_size round_to_venue_ticks
  exact le_trans (le_max_left 1 _) (le_max_right 0 _)

/-- C4 counterexample: adding a mapping whose event id is unknown to a fresh
registry succeeds and changes the mappings store — `add_mapping` performs no
existence check (mirroring the repository's own registry tests, which add
mappings without ever adding the event). -/
theorem add_mapping_accepts_unknown_event :
    get_event empty_registry orphan_mapping.event_id = none ∧
    get_event (add_mapping empty_registry orphan_mapping) orphan_mapping.event_id = none ∧
    get_mapping (add_mapping empty_registry orphan_mapping) "polymarket" "m1"
      = some orphan_mapping ∧
    (add_mapping empty_registry orphan_mapping).mappings ≠ empty_registry.mappings := by
  refine ⟨rfl, rfl, rfl, by decide⟩

/-- C4 amended: `add_mapping` never fails; for every registry and mapping it
stores the mapping under the key `(venue, market_id)` — regardless of
whether the mapping's event id denotes an existing event — and leaves the
events store unchanged, so stored mappings may reference non-extant
events. -/
theorem add_mapping_always_stores :
    ∀ (r : EventRegistry) (m : VenueMapping),
      get_mapping (add_mapping r m) m.venue m.market_id = some m ∧
      (add_mapping r m).events = r.events := by
  intro r m
  exact ⟨dictGet_dictInsert_self _ m r.mappings, rfl⟩

/-- C10: the liquidity estimate is the constant 1000 for every request, so
`_execute_both_legs` never takes the leg-A-first branch: for every placement
oracle, retry budget, opportunity and size, the branch guard is false and
the run equals the leg-B-first path — leg B's attempts come first in the
placement trace and leg A is attempted only when leg B returned a fill. -/
theorem execute_both_legs_b_first :
    ∀ (place : OrderRequest → Nat → Option Fill) (n : Nat)
      (opportunity : ArbOpportunity) (position_size : Rat),
      ¬ (estimate_liquidity opportunity.leg_a < estimate_liquidity opportunity.leg_b) ∧
      execute_both_legs place n opportunity position_size =
        (match execute_leg place n opportunity.leg_b position_size with
         | (some fill_b, trb) =>
           match execute_leg place n opportunity.leg_a position_size with
           | (fill_a, tra) => (some (fill_a, some fill_b), trb ++ tra)
         | (none, trb) => (none, trb)) := by
  intro place n opportunity position_size
  constructor
  · simp [estimate_liquidity]
  · unfold execute_both_legs
    rw [if_neg (by simp [estimate_liquidity])]

/-- C5 counterexample: with the default Polymarket fee model (taker 25 bps,
0.50 USD flat gas), a SELL at price 0.1 with qty 1 has effective price
-0.40025 — the fee model does return negative effective prices. -/
theorem sell_effective_price_negative :
    calculate_effective_price default_fee_models Venue.polymarket OrderSide.sell
      (1/10) 1 false = -(1601/4000) ∧
    calculate_effective_price default_fee_models Venue.polymarket OrderSide.sell
      (1/10) 1 false < 0 := by
  have hv : calculate_effective_price default_fee_models Venue.polymarket OrderSide.sell
      (1/10) 1 false = -(1601/4000) := by
    have hne : ¬ OrderSide.sell = OrderSide.buy := by decide
    norm_num [calculate_effective_price, estimate_trade_cost, default_fee_models, hne]
  exact ⟨hv, by rw [hv]; norm_num⟩

/-- C5 amended: the non-negativity guarantee holds for the BUY side: for
every venue with a configured fee model whose parameters are nonnegative,
every price in [0, 1] and every qty > 0, `calculate_effective_price`
returns a value ≥ 0 (the SELL side has no clamp and can go negative). -/
theorem buy_effective_price_nonneg :
    ∀ (fee_models : FeeModels) (venue : Venue) (fm : FeeModel)
      (price qty : Rat) (is_maker : Bool),
      fee_models venue = some fm →
      0 ≤ fm.maker_bps → 0 ≤ fm.taker_bps → 0 ≤ fm.gas_estimate_usd →
      0 ≤ fm.withdrawal_fee.getD 0 →
      0 ≤ price → price ≤ 1 → 0 < qty →
      0 ≤ calculate_effective_price fee_models venue OrderSide.buy price qty is_maker := by
  intro fee_models venue fm price qty is_maker hv hm ht hg hw hp hp1 hq
  simp only [calculate_effective_price, estimate_trade_cost, hv]
  by_cases h0 : price * qty = 0
  · rw [if_pos h0]
    exact hp
  · rw [if_neg h0, if_true]
    have hfee : 0 ≤ (if is_maker then fm.maker_bps else fm.taker_bps) := by
      cases is_maker <;> simpa
    have hcost : 0 ≤ price * qty * ((if is_maker then fm.maker_bps else fm.taker_bps) / 10000)
        + fm.gas_estimate_usd + fm.withdrawal_fee.getD 0 := by
      have h1 : 0 ≤ price * qty * ((if is_maker then fm.maker_bps else fm.taker_bps) / 10000) :=
        mul_nonneg (mul_nonneg hp hq.le) (div_nonneg hfee (by norm_num))
      exact add_nonneg (add_nonneg h1 hg) hw
    exact add_nonneg hp (div_nonneg hcost hq.le)

/-- C5 witness: instantiation of the BUY-side non-negativity theorem at the
default Polymarket model, price 0.5, qty 1. -/
theorem buy_effective_price_nonneg_spot :
    0 ≤ calculate_effective_price default_fee_models Venue.polymarket OrderSide.buy
      (1/2) 1 false :=
  buy_effective_price_nonneg default_fee_models Venue.polymarket
    { maker_bps := 0, taker_bps := 25, gas_estimate_usd := 1/2 } (1/2) 1 false rfl
    le_rfl (by norm_num) (by norm_num) le_rfl (by norm_num) (by norm_num) (by norm_num)

/-- C6 counterexample: on the PnL history [10, -5, 5] with a 10 percent
limit, `_check_drawdown` reports a breach (the maximum historical drawdown
is 5 against a peak of 10), while the CURRENT drawdown from the running
peak is 0, so the claim's characterisation does not hold. -/
theorem current_drawdown_mismatch :
    check_drawdown 10 [10, -5, 5] = true ∧
    ¬ spec_current_drawdown_breached 10 [10, -5, 5] := by
  constructor <;> with_unfolding_all decide

/-- Folding `max` after appending one element. -/
theorem foldl_max_append (a x : Rat) (l : List Rat) :
    (l ++ [x]).foldl max a = max (l.foldl max a) x := by
  simp [List.foldl_append]

/-- Cumulative PnL ignores entries beyond the prefix it sums. -/
theorem cumulativePnl_append_of_le (xs : List Rat) (x : Rat) (n : Nat)
    (h : n ≤ xs.length) : cumulativePnl (xs ++ [x]) n = cumulativePnl xs n := by
  unfold cumulativePnl
  rw [List.take_append_of_le_length h]

/-- Cumulative PnL over the full appended history is its sum. -/
theorem cumulativePnl_append_full (xs : List Rat) (x : Rat) :
    cumulativePnl (xs ++ [x]) (xs.length + 1) = (xs ++ [x]).sum := by
  unfold cumulativePnl
  rw [List.take_of_length_le (by simp)]

/-- Appending one PnL entry updates the running peak by a single `max`. -/
theorem runningPeak_append (xs : List Rat) (x : Rat) :
    runningPeak (xs ++ [x]) = max (runningPeak xs) ((xs ++ [x]).sum) := by
  unfold runningPeak
  rw [List.length_append, List.length_singleton, List.range_succ, List.map_append,
    List.map_singleton, foldl_max_append]
  congr 1
  · congr 1
    apply List.map_congr_left
    intro i hi
    exact cumulativePnl_append_of_le xs x (i + 1) (List.mem_range.mp hi)
  · exact cumulativePnl_append_full xs x

/-- Appending one PnL entry updates the maximum historical drawdown by a
single `max` against the new current drawdown. -/
theorem histMaxDrawdown_append (xs : List Rat) (x : Rat) :
    histMaxDrawdown (xs ++ [x]) =
      max (histMaxDrawdown xs) (runningPeak (xs ++ [x]) - (xs ++ [x]).sum) := by
  unfold histMaxDrawdown
  rw [List.length_append, List.length_singleton, List.range_succ, List.map_append,
    List.map_singleton, foldl_max_append]
  congr 1
  · congr 1
    apply List.map_congr_left
    intro i hi
    have hle : i + 1 ≤ xs.length := List.mem_range.mp hi
    rw [List.take_append_of_le_length hle, cumulativePnl_append_of_le xs x (i + 1) hle]
  · rw [List.take_of_length_le (by simp), cumulativePnl_append_full xs x]

/-- The source's drawdown fold computes exactly the final cumulative PnL,
the running peak and the maximum historical drawdown. -/
theorem drawdown_foldl_spec (hist : List Rat) :
    hist.foldl drawdown_step (0, 0, 0) = (hist.sum, runningPeak hist, histMaxDrawdown hist) := by
  induction hist using List.reverseRecOn with
  | nil => rfl
  | append_singleton xs x ih =>
    rw [List.foldl_append, ih, List.foldl_cons, List.foldl_nil]
    unfold drawdown_step
    rw [histMaxDrawdown_append, runningPeak_append]
    simp only [List.sum_append, List.sum_cons, List.sum_nil, add_zero]

/-- C6 amended: the drawdown gate breaches exactly when the running peak is
positive and the MAXIMUM HISTORICAL drawdown (the largest gap between the
running peak and the cumulative PnL at any point of the history), taken as
a percentage of the final peak, exceeds the limit. -/
theorem check_drawdown_iff :
    ∀ (max_drawdown_pct : Rat) (pnl_history : List Rat),
      check_drawdown max_drawdown_pct pnl_history = true ↔
        (0 < runningPeak pnl_history ∧
          histMaxDrawdown pnl_history / runningPeak pnl_history * 100 > max_drawdown_pct) := by
  intro d hist
  unfold check_drawdown
  rcases eq_or_ne hist [] with h | h
  · subst h
    simp [runningPeak]
  · rw [if_neg h, drawdown_foldl_spec]
    by_cases hp : (0 : Rat) < runningPeak hist
    · rw [if_pos hp]
      simp [hp]
    · rw [if_neg hp]
      simp [hp]

/-- C8 counterexample: at qty = 2 on the default Kalshi model (taker
30 bps), `calculate_breakeven_price` is NOT inverted by
`calculate_effective_price`: the round trip of target 1 returns 2006/2003,
not 1 (the breakeven formula divides the fee rate by qty although the
per-unit fee does not scale with qty). -/
theorem breakeven_roundtrip_fails_qty_two :
    calculate_effective_price default_fee_models Venue.kalshi OrderSide.buy
      (calculate_breakeven_price default_fee_models Venue.kalshi OrderSide.buy 1 2 false)
      2 false = 2006/2003 ∧
    (2006 : Rat) / 2003 ≠ 1 := by
  constructor <;> with_unfolding_all decide

/-- C8 amended: the inverse identity holds at unit quantity: for every venue
with a configured fee model, both sides, and every target price, with the
side's denominator nonzero and a nonzero breakeven price,
`calculate_effective_price` applied to `calculate_breakeven_price` at
qty = 1 returns the target exactly. -/
theorem breakeven_inverse_unit_qty :
    ∀ (fee_models : FeeModels) (venue : Venue) (fm : FeeModel) (side : OrderSide)
      (target_price : Rat) (is_maker : Bool),
      fee_models venue = some fm →
      (side = OrderSide.buy →
        1 + (if is_maker then fm.maker_bps else fm.taker_bps) / 10000 ≠ 0) →
      (side = OrderSide.sell →
        1 - (if is_maker then fm.maker_bps else fm.taker_bps) / 10000 ≠ 0) →
      calculate_breakeven_price fee_models venue side target_price 1 is_maker ≠ 0 →
      calculate_effective_price fee_models venue side
        (calculate_breakeven_price fee_models venue side target_price 1 is_maker) 1 is_maker
        = target_price := by
  intro fee_models venue fm side target is_maker hv hbuy hsell hb
  set r := (if is_maker then fm.maker_bps else fm.taker_bps) / 10000 with hr
  cases side with
  | buy =>
    have hden : 1 + r ≠ 0 := hbuy rfl
    have hbe : calculate_breakeven_price fee_models venue OrderSide.buy target 1 is_maker =
        (target - (fm.gas_estimate_usd + fm.withdrawal_fee.getD 0)) / (1 + r) := by
      simp only [calculate_breakeven_price, hv, ← hr, div_one]
      rw [if_true, if_pos hden]
    rw [hbe] at hb ⊢
    simp only [calculate_effective_price, estimate_trade_cost, hv, ← hr, mul_one, div_one]
    rw [if_neg hb, if_true]
    field_simp
    ring
  | sell =>
    have hden : 1 - r ≠ 0 := hsell rfl
    have hbe : calculate_breakeven_price fee_models venue OrderSide.sell target 1 is_maker =
        (target + (fm.gas_estimate_usd + fm.withdrawal_fee.getD 0)) / (1 - r) := by
      simp only [calculate_breakeven_price, hv, ← hr, div_one]
      rw [if_neg (by decide : ¬ (OrderSide.sell = OrderSide.buy)), if_pos hden]
    rw [hbe] at hb ⊢
    simp only [calculate_effective_price, estimate_trade_cost, hv, ← hr, mul_one, div_one]
    rw [if_neg hb, if_neg (by decide : ¬ (OrderSide.sell = OrderSide.buy))]
    field_simp
    ring

/-- C8 witness: instantiation of the unit-quantity inverse at the default
Kalshi model, BUY side, target 0.5. -/
theorem breakeven_inverse_unit_qty_spot :
    calculate_effective_price default_fee_models Venue.kalshi OrderSide.buy
      (calculate_breakeven_price default_fee_models Venue.kalshi OrderSide.buy (1/2) 1 false)
      1 false = 1/2 :=
  breakeven_inverse_unit_qty default_fee_models Venue.kalshi
    { maker_bps := 0, taker_bps := 30 } OrderSide.buy (1/2) false rfl
    (fun _ => by norm_num) (fun h => OrderSide.noConfusion h)
    (by with_unfolding_all decide)

/-- Folding `add_trade` never changes the initial balance. -/
theorem foldl_add_trade_initial (ts : List Trade) (p : PortfolioSt) :
    (ts.foldl add_trade p).initial_balance = p.initial_balance := by
  induction ts generalizing p with
  | nil => rfl
  | cons t ts ih =>
    rw [List.foldl_cons, ih]
    rfl

/-- Folding `add_trade` preserves the balance bookkeeping invariant. -/
theorem foldl_add_trade_balance (ts : List Trade) (p : PortfolioSt)
    (h : p.current_balance = p.initial_balance + (p.trades.map Trade.pnl).sum) :
    (ts.foldl add_trade p).current_balance =
      (ts.foldl add_trade p).initial_balance
        + (((ts.foldl add_trade p).trades).map Trade.pnl).sum := by
  induction ts generalizing p with
  | nil => simpa using h
  | cons t ts ih =>
    rw [List.foldl_cons]
    apply ih
    simp only [add_trade, List.map_append, List.sum_append, List.map_cons, List.map_nil,
      List.sum_cons, List.sum_nil, add_zero, h]
    ring

/-- C9: starting from a fresh portfolio, after any sequence of `add_trade`
calls the current balance equals the initial balance plus the sum of PnL
over all trades in the ledger. -/
theorem portfolio_balance_invariant :
    ∀ (initial_balance : Rat) (ts : List Trade),
      (ts.foldl add_trade (init_portfolio initial_balance)).current_balance =
        initial_balance
          + (((ts.foldl add_trade (init_portfolio initial_balance)).trades).map Trade.pnl).sum := by
  intro i ts
  rw [foldl_add_trade_balance ts (init_portfolio i) (by simp [init_portfolio]),
    foldl_add_trade_initial]
  rfl
